import Mathlib

/-!
Verification of the rustlox bytecode pipeline: a shallow embedding of the
scanner / compiler / chunk / virtual-machine core (src/scanner.rs,
src/compiler.rs, src/chunk.rs, src/value.rs, src/vm.rs, src/main.rs),
with theorems checking the natural-language specification against it.

Modelling conventions:
  * Rust `Vec<u8>` bytecode is a `List Nat` of byte values.
  * `f64` payloads are modelled as `Int`; none of the properties proved
    here depends on floating-point arithmetic, only on the variant tags
    and on *some* equality/order/arithmetic of the numeric payload.
  * The VM operand stack (`Vec<Value>`, pushed/popped at the end) is
    modelled as a `List Value` with its TOP AT THE HEAD: `Vec::push` is
    cons, `Vec::pop` takes the head, `stack[len-1]` is the head and
    `stack[len-2]` the second element.
  * Rust panics (`unwrap` on an empty stack, out-of-range indexing) are
    modelled by returning `none`.
  * stdout and stderr are modelled as `String` fields accumulated in the
    VM state.
-/

namespace Rustlox

/-- Heap objects (src/object.rs, bytecode layer): the only variant is an
immutable string. -/
inductive Obj where
  | string : String → Obj
deriving DecidableEq, Repr

/-- Tagged values (src/value.rs). The `f64` payload of `Number` is
modelled as `Int`. -/
inductive Value where
  | bool : Bool → Value
  | nil : Value
  | number : Int → Value
  | obj : Obj → Value
deriving DecidableEq, Repr

namespace Value

/-- Value::is_bool (src/value.rs). -/
def is_bool : Value → Bool
  | .bool _ => true
  | _ => false

/-- Value::is_nil (src/value.rs). -/
def is_nil : Value → Bool
  | .nil => true
  | _ => false

/-- Value::is_number (src/value.rs). -/
def is_number : Value → Bool
  | .number _ => true
  | _ => false

/-- Value::is_obj (src/value.rs). -/
def is_obj : Value → Bool
  | .obj _ => true
  | _ => false

/-- Value::is_string, called by vm.rs: the value is a heap object holding
a string (the only Obj variant). -/
def is_string : Value → Bool
  | .obj (.string _) => true
  | _ => false

/-- Value::as_bool (src/value.rs); the panic branch is unreachable at
every (guarded) call site and is modelled as a default. -/
def as_bool : Value → Bool
  | .bool b => b
  | _ => false

/-- Value::as_number (src/value.rs); the panic branch is unreachable at
every (guarded) call site and is modelled as a default. -/
def as_number : Value → Int
  | .number n => n
  | _ => 0

/-- Value::is_falsey (src/value.rs): nil, or a false boolean. -/
def is_falsey (v : Value) : Bool :=
  v.is_nil || (v.is_bool && !v.as_bool)

/-- The PartialEq implementation for Value (src/value.rs lines 121-138):
values of different variants are unequal, Nil equals Nil, Bool and
Number compare by content, Obj strings compare by content. -/
def value_eq : Value → Value → Bool
  | .bool b, other => other.is_bool && (b == other.as_bool)
  | .nil, other => other.is_nil
  | .number n, other => other.is_number && (n == other.as_number)
  | .obj (.string a), other =>
    match other with
    | .obj (.string b) => a == b
    | _ => false

/-- Display for Obj contents. -/
def obj_display : Obj → String
  | .string s => s

/-- The Display implementation for Value (src/value.rs lines 70-79). -/
def display : Value → String
  | .bool b => if b then "true" else "false"
  | .nil => "nil"
  | .number n => toString n
  | .obj o => obj_display o

end Value

/-- The one-byte opcodes (src/chunk.rs lines 3-25), in declaration order;
repr(u8) assigns discriminants 0..18. -/
inductive OpCode where
  | Constant
  | Nil
  | True
  | False
  | Pop
  | GetGlobal
  | DefineGlobal
  | SetGlobal
  | Equal
  | Greater
  | Less
  | Add
  | Sub
  | Mul
  | Div
  | Not
  | Negate
  | Print
  | Return
deriving DecidableEq, Repr

namespace OpCode

/-- num_enum::IntoPrimitive: the u8 discriminant of each opcode. -/
def toByte : OpCode → Nat
  | .Constant => 0
  | .Nil => 1
  | .True => 2
  | .False => 3
  | .Pop => 4
  | .GetGlobal => 5
  | .DefineGlobal => 6
  | .SetGlobal => 7
  | .Equal => 8
  | .Greater => 9
  | .Less => 10
  | .Add => 11
  | .Sub => 12
  | .Mul => 13
  | .Div => 14
  | .Not => 15
  | .Negate => 16
  | .Print => 17
  | .Return => 18

/-- num_enum::TryFromPrimitive: decode a byte back to an opcode; bytes
outside 0..18 decode to none. -/
def try_from (b : Nat) : Option OpCode :=
  if b = 0 then some .Constant
  else if b = 1 then some .Nil
  else if b = 2 then some .True
  else if b = 3 then some .False
  else if b = 4 then some .Pop
  else if b = 5 then some .GetGlobal
  else if b = 6 then some .DefineGlobal
  else if b = 7 then some .SetGlobal
  else if b = 8 then some .Equal
  else if b = 9 then some .Greater
  else if b = 10 then some .Less
  else if b = 11 then some .Add
  else if b = 12 then some .Sub
  else if b = 13 then some .Mul
  else if b = 14 then some .Div
  else if b = 15 then some .Not
  else if b = 16 then some .Negate
  else if b = 17 then some .Print
  else if b = 18 then some .Return
  else none

theorem try_from_toByte (oc : OpCode) : try_from oc.toByte = some oc := by
  cases oc <;> rfl

end OpCode

/-- The bytecode container (src/chunk.rs lines 27-32): code bytes, the
constant pool, and the source-line table parallel to code. -/
structure Chunk where
  code : List Nat
  constants : List Value
  lines : List Nat
deriving DecidableEq, Repr

namespace Chunk

/-- Chunk::new (src/chunk.rs): all three sequences empty. -/
def new : Chunk := ⟨[], [], []⟩

/-- Chunk::write (src/chunk.rs lines 39-42): push the byte onto code and
the line onto lines. -/
def write (c : Chunk) (byte : Nat) (line : Nat) : Chunk :=
  { c with code := c.code ++ [byte], lines := c.lines ++ [line] }

/-- Chunk::add_constant (src/chunk.rs lines 44-47): push the value onto
constants and return the index of the pushed value. -/
def add_constant (c : Chunk) (v : Value) : Chunk × Nat :=
  ({ c with constants := c.constants ++ [v] }, c.constants.length)

end Chunk

/-- The chunks constructible through the public Chunk interface: start
from Chunk::new and apply Chunk::write / Chunk::add_constant.  The
compiler mutates its output chunk only through these two operations
(compiler.rs emit_byte and make_constant), so every chunk produced by
compile is reachable. -/
inductive ChunkReachable : Chunk → Prop where
  | new : ChunkReachable Chunk.new
  | write (c : Chunk) (b l : Nat) : ChunkReachable c → ChunkReachable (c.write b l)
  | add_constant (c : Chunk) (v : Value) :
      ChunkReachable c → ChunkReachable (c.add_constant v).1

/-- The result type of VM::interpret (src/vm.rs lines 19-23). -/
inductive InterpretResult where
  | ok
  | compileError
  | runtimeError
deriving DecidableEq, Repr

/-- The VM state (src/vm.rs lines 12-17: chunk, ip, stack).  Modelled
from the spec: the `globals` table ("mapping from string (identifier
text) to Value"); chunk.rs declares the GetGlobal / DefineGlobal /
SetGlobal opcodes and compiler.rs emits them, but the vm.rs of this
snapshot does not yet carry the field.  `output` and `errout` model the
process stdout and stderr streams. -/
structure VMState where
  chunk : Option Chunk
  ip : Nat
  stack : List Value
  globals : List (String × Value)
  output : String
  errout : String
deriving DecidableEq, Repr

/-- Lookup of a name in the globals table. -/
def globals_get : List (String × Value) → String → Option Value
  | [], _ => none
  | (k, v) :: rest, name => if k == name then some v else globals_get rest name

/-- Unconditional write into the globals table: replace the existing
binding if the name is present, append it otherwise. -/
def globals_set : List (String × Value) → String → Value → List (String × Value)
  | [], name, v => [(name, v)]
  | (k, w) :: rest, name, v =>
    if k == name then (name, v) :: rest else (k, w) :: globals_set rest name v

/-- VM::runtime_error (src/vm.rs lines 159-165): print the message and
then the source line of the byte at ip - 1 to stderr.  Out-of-range
indexing of the line table (a Rust panic) yields none. -/
def runtime_error (ch : Chunk) (st : VMState) (msg : String) : Option VMState :=
  (ch.lines.get? (st.ip - 1)).map fun line =>
    { st with errout :=
      st.errout ++ msg ++ "\n" ++ "[line " ++ toString line ++ "] in script" ++ "\n" }

/-- Outcome of one iteration of the VM dispatch loop: continue with the
next state, or leave the loop with a result. -/
inductive StepOut where
  | next : VMState → StepOut
  | halt : VMState → InterpretResult → StepOut
deriving DecidableEq, Repr

/-- One iteration of the VM dispatch loop (src/vm.rs lines 89-157).
Faithful to vm.rs for the opcodes it handles (Constant, Nil, True,
False, Equal, Greater, Less, Add, Sub, Mul, Div, Not, Negate, Return).
The arms for Pop, GetGlobal, DefineGlobal, SetGlobal and Print are
modelled from the spec (section 4.3 and 4.4): vm.rs at this snapshot
has no match arms for them although chunk.rs declares the opcodes and
compiler.rs emits them. -/
def step (st : VMState) : Option StepOut :=
  match st.chunk with
  | none => none
  | some ch =>
    match ch.code.get? st.ip with
    | none => none
    | some b =>
      let st1 : VMState := { st with ip := st.ip + 1 }
      match OpCode.try_from b with
      | none => some (StepOut.next st1)
      | some oc =>
        match oc with
        | .Constant =>
          match ch.code.get? st1.ip with
          | none => none
          | some idx =>
            let st2 : VMState := { st1 with ip := st1.ip + 1 }
            match ch.constants.get? idx with
            | none => none
            | some v => some (.next { st2 with stack := v :: st2.stack })
        | .Nil => some (.next { st1 with stack := Value.nil :: st1.stack })
        | .True => some (.next { st1 with stack := Value.bool true :: st1.stack })
        | .False => some (.next { st1 with stack := Value.bool false :: st1.stack })
        | .Pop =>
          -- Modelled from the spec: "Pop | 0 | v -> ".
          match st1.stack with
          | _ :: rest => some (.next { st1 with stack := rest })
          | [] => none
        | .GetGlobal =>
          -- Modelled from the spec: "GetGlobal idx:u8 | 1 |
          -- -> globals[const[idx] as string] (runtime err if absent)",
          -- error message "Undefined variable '<name>'.".
          match ch.code.get? st1.ip with
          | none => none
          | some idx =>
            let st2 : VMState := { st1 with ip := st1.ip + 1 }
            match ch.constants.get? idx with
            | none => none
            | some (.obj (.string name)) =>
              match globals_get st2.globals name with
              | some v => some (.next { st2 with stack := v :: st2.stack })
              | none =>
                match runtime_error ch st2 ("Undefined variable '" ++ name ++ "'.") with
                | none => none
                | some s => some (.halt s .runtimeError)
            | some _ => none
        | .DefineGlobal =>
          -- Modelled from the spec: "DefineGlobal idx:u8 | 1 |
          -- v -> (globals[name]:=v)"; the write is unconditional.
          match ch.code.get? st1.ip with
          | none => none
          | some idx =>
            let st2 : VMState := { st1 with ip := st1.ip + 1 }
            match ch.constants.get? idx with
            | none => none
            | some (.obj (.string name)) =>
              match st2.stack with
              | v :: rest =>
                some (.next { st2 with stack := rest, globals := globals_set st2.globals name v })
              | [] => none
            | some _ => none
        | .SetGlobal =>
          -- Modelled from the spec: "SetGlobal idx:u8 | 1 |
          -- v -> v (err if name absent)", error "Undefined variable '<name>'.".
          match ch.code.get? st1.ip with
          | none => none
          | some idx =>
            let st2 : VMState := { st1 with ip := st1.ip + 1 }
            match ch.constants.get? idx with
            | none => none
            | some (.obj (.string name)) =>
              match globals_get st2.globals name with
              | none =>
                match runtime_error ch st2 ("Undefined variable '" ++ name ++ "'.") with
                | none => none
                | some s => some (.halt s .runtimeError)
              | some _ =>
                match st2.stack with
                | v :: _ => some (.next { st2 with globals := globals_set st2.globals name v })
                | [] => none
            | some _ => none
        | .Equal =>
          match st1.stack with
          | b :: a :: rest =>
            some (.next { st1 with stack := Value.bool (Value.value_eq a b) :: rest })
          | _ => none
        | .Greater =>
          -- The common_op macro (src/vm.rs lines 25-36), expanded inline
          -- as Rust expands it: check that the top two stack values are
          -- numbers BEFORE popping them; on a mismatch raise the runtime
          -- error "Operands must be numbers." with the stack intact.
          match st1.stack with
          | [] => none
          | b :: rest =>
            if !b.is_number then
              match runtime_error ch st1 "Operands must be numbers." with
              | none => none
              | some s => some (.halt s .runtimeError)
            else
              match rest with
              | [] => none
              | a :: rest2 =>
                if !a.is_number then
                  match runtime_error ch st1 "Operands must be numbers." with
                  | none => none
                  | some s => some (.halt s .runtimeError)
                else
                  some (.next { st1 with stack := Value.bool (decide (a.as_number > b.as_number)) :: rest2 })
        | .Less =>
          -- The common_op macro (src/vm.rs lines 25-36), expanded inline
          -- as Rust expands it: check that the top two stack values are
          -- numbers BEFORE popping them; on a mismatch raise the runtime
          -- error "Operands must be numbers." with the stack intact.
          match st1.stack with
          | [] => none
          | b :: rest =>
            if !b.is_number then
              match runtime_error ch st1 "Operands must be numbers." with
              | none => none
              | some s => some (.halt s .runtimeError)
            else
              match rest with
              | [] => none
              | a :: rest2 =>
                if !a.is_number then
                  match runtime_error ch st1 "Operands must be numbers." with
                  | none => none
                  | some s => some (.halt s .runtimeError)
                else
                  some (.next { st1 with stack := Value.bool (decide (a.as_number < b.as_number)) :: rest2 })
        | .Add =>
          -- src/vm.rs lines 115-130: both conditions inspect the stack tops
          -- before anything is popped; && short-circuits left to right.
          match st1.stack with
          | [] => none
          | b :: rest =>
            if b.is_string then
              match rest with
              | [] => none
              | a :: rest' =>
                if a.is_string then
                  -- VM::concatenate (src/vm.rs lines 80-87)
                  let sa := Value.obj_display (match a with | .obj o => o | _ => .string "")
                  let sb := Value.obj_display (match b with | .obj o => o | _ => .string "")
                  let v := Value.obj (.string (sa ++ sb))
                  some (.next { st1 with stack := v :: rest' })
                else
                  match runtime_error ch st1 "Operands must be two numbers or two strings." with
                  | none => none
                  | some s => some (.halt s .runtimeError)
            else if b.is_number then
              match rest with
              | [] => none
              | a :: rest' =>
                if a.is_number then
                  let v := Value.number (a.as_number + b.as_number)
                  some (.next { st1 with stack := v :: rest' })
                else
                  match runtime_error ch st1 "Operands must be two numbers or two strings." with
                  | none => none
                  | some s => some (.halt s .runtimeError)
            else
              match runtime_error ch st1 "Operands must be two numbers or two strings." with
              | none => none
              | some s => some (.halt s .runtimeError)
        | .Sub =>
          -- The common_op macro (src/vm.rs lines 25-36), expanded inline
          -- as Rust expands it: check that the top two stack values are
          -- numbers BEFORE popping them; on a mismatch raise the runtime
          -- error "Operands must be numbers." with the stack intact.
          match st1.stack with
          | [] => none
          | b :: rest =>
            if !b.is_number then
              match runtime_error ch st1 "Operands must be numbers." with
              | none => none
              | some s => some (.halt s .runtimeError)
            else
              match rest with
              | [] => none
              | a :: rest2 =>
                if !a.is_number then
                  match runtime_error ch st1 "Operands must be numbers." with
                  | none => none
                  | some s => some (.halt s .runtimeError)
                else
                  some (.next { st1 with stack := Value.number (a.as_number - b.as_number) :: rest2 })
        | .Mul =>
          -- The common_op macro (src/vm.rs lines 25-36), expanded inline
          -- as Rust expands it: check that the top two stack values are
          -- numbers BEFORE popping them; on a mismatch raise the runtime
          -- error "Operands must be numbers." with the stack intact.
          match st1.stack with
          | [] => none
          | b :: rest =>
            if !b.is_number then
              match runtime_error ch st1 "Operands must be numbers." with
              | none => none
              | some s => some (.halt s .runtimeError)
            else
              match rest with
              | [] => none
              | a :: rest2 =>
                if !a.is_number then
                  match runtime_error ch st1 "Operands must be numbers." with
                  | none => none
                  | some s => some (.halt s .runtimeError)
                else
                  some (.next { st1 with stack := Value.number (a.as_number * b.as_number) :: rest2 })
        | .Div =>
          -- The common_op macro (src/vm.rs lines 25-36), expanded inline
          -- as Rust expands it: check that the top two stack values are
          -- numbers BEFORE popping them; on a mismatch raise the runtime
          -- error "Operands must be numbers." with the stack intact.
          match st1.stack with
          | [] => none
          | b :: rest =>
            if !b.is_number then
              match runtime_error ch st1 "Operands must be numbers." with
              | none => none
              | some s => some (.halt s .runtimeError)
            else
              match rest with
              | [] => none
              | a :: rest2 =>
                if !a.is_number then
                  match runtime_error ch st1 "Operands must be numbers." with
                  | none => none
                  | some s => some (.halt s .runtimeError)
                else
                  some (.next { st1 with stack := Value.number (a.as_number / b.as_number) :: rest2 })
        | .Not =>
          match st1.stack with
          | v :: rest =>
            some (.next { st1 with stack := Value.bool v.is_falsey :: rest })
          | [] => none
        | .Negate =>
          -- src/vm.rs lines 138-147: peek the top, check, only then pop.
          match st1.stack with
          | [] => none
          | v :: rest =>
            if v.is_number then
              some (.next { st1 with stack := Value.number (-(v.as_number)) :: rest })
            else
              match runtime_error ch st1 "Operand must be a number." with
              | none => none
              | some s => some (.halt s .runtimeError)
        | .Print =>
          -- Modelled from the spec: "Print | 0 | v -> (side effect: value
          -- to stdout + newline)"; execution continues.
          match st1.stack with
          | v :: rest =>
            some (.next { st1 with stack := rest, output := st1.output ++ v.display ++ "\n" })
          | [] => none
        | .Return =>
          -- src/vm.rs lines 148-153: pop the top if present and print it,
          -- then leave the loop with Ok.
          match st1.stack with
          | top :: rest =>
            let out := st1.output ++ top.display ++ "\n"
            some (.halt { st1 with stack := rest, output := out } .ok)
          | [] => some (.halt st1 .ok)

/-- The VM dispatch loop (src/vm.rs run), with explicit fuel; none
models divergence or a panic. -/
def run : Nat → VMState → Option (VMState × InterpretResult)
  | 0, _ => none
  | fuel + 1, st =>
    match step st with
    | none => none
    | some (.next st') => run fuel st'
    | some (.halt st' r) => some (st', r)

/-- VM::interpret (src/vm.rs lines 57-67), parametric in the compile
function: compile into a fresh chunk; on failure return CompileError
before any VM field is assigned; on success install the chunk, reset
ip to 0 and run. -/
def interpret (fuel : Nat) (compileFn : String → Chunk × Bool)
    (vm : VMState) (source : String) : Option (VMState × InterpretResult) :=
  let (chunk, ok) := compileFn source
  if !ok then some (vm, .compileError)
  else run fuel { vm with chunk := some chunk, ip := 0 }

/-- The token kinds of the bytecode pipeline's scanner, as consumed by
src/compiler.rs (thirty-nine kinds: punctuators, one/two-char
operators, literals, sixteen keywords, the sentinel Error and Eof). -/
inductive TokenKind where
  | LeftParen
  | RightParen
  | LeftBrace
  | RightBrace
  | Comma
  | Dot
  | Minus
  | Plus
  | Semicolon
  | Slash
  | Star
  | Bang
  | BangEqual
  | Equal
  | EqualEqual
  | Greater
  | GreaterEqual
  | Less
  | LessEqual
  | Identifier
  | String
  | Number
  | And
  | Class
  | Else
  | False
  | For
  | Fun
  | If
  | Nil
  | Or
  | Print
  | Return
  | Super
  | This
  | True
  | Var
  | While
  | Error
  | Eof
deriving DecidableEq, Repr

/-- A token of the bytecode pipeline: kind, lexeme (slice of the
source; for Error tokens the diagnostic message), and source line. -/
structure Token where
  kind : TokenKind
  lexeme : String
  line : Nat
deriving DecidableEq, Repr

/-- A compile-time local variable (src/compiler.rs lines 693-697):
its name token and the scope depth at which it was declared. -/
structure Local where
  name : Token
  depth : Int
deriving DecidableEq, Repr

/-- The loop body of Compiler::resolve_local (src/compiler.rs lines
543-551), carrying the index of the local currently inspected. -/
def resolve_local_go (name : Token) : List Local → Nat → Int
  | [], _ => -1
  | l :: rest, i =>
    if name.lexeme == l.name.lexeme then (i : Int) else resolve_local_go name rest (i + 1)

/-- Compiler::resolve_local (src/compiler.rs lines 543-551): iterate
i upward over 0..local_count and return the FIRST index whose local has
a matching lexeme, or -1 when none matches.  (Note the iteration
order: the scan starts at slot 0, the oldest local.) -/
def resolve_local (locals : List Local) (name : Token) : Int :=
  resolve_local_go name locals 0

/-- The opcodes emitted by the match at the end of Compiler::binary
(src/compiler.rs lines 498-510) for each operator token; the
unreachable default is modelled as the empty emission. -/
def binary_emitted : TokenKind → List OpCode
  | .BangEqual => [.Equal, .Not]
  | .EqualEqual => [.Equal]
  | .Greater => [.Greater]
  | .GreaterEqual => [.Less, .Not]
  | .Less => [.Less]
  | .LessEqual => [.Greater, .Not]
  | .Plus => [.Add]
  | .Minus => [.Sub]
  | .Star => [.Mul]
  | .Slash => [.Div]
  | _ => []

/-- Compiler::emit_byte iterated (src/compiler.rs lines 439-448):
each emitted opcode byte goes through Chunk::write with the previous
token's line. -/
def emit_ops (c : Chunk) (line : Nat) (ops : List OpCode) : Chunk :=
  ops.foldl (fun acc op => acc.write op.toByte line) c

/-- What the process does after inspecting its argument list. -/
inductive MainAction where
  | runPrompt
  | runFile : String → MainAction
  | usage : String → Nat → MainAction
deriving DecidableEq, Repr

/-- The match in main (src/main.rs lines 29-40) on args.len(), where
args[0] is the program path: one element runs the REPL, two elements
run the file named by args[1], anything else prints the usage line and
exits with code 64. -/
def main_dispatch (args : List String) : MainAction :=
  match args.length with
  | 1 => .runPrompt
  | 2 => .runFile (args.getD 1 "")
  | _ => .usage "Usage: jlox [script]" 64

/-- The exit behaviour of run_file (src/main.rs lines 42-53) after the
run: exit 65 when an error was reported, else 70 when a runtime error
was reported, else return normally (process exit 0). -/
def run_file_exit (had_error had_runtime_error : Bool) : Nat :=
  if had_error then 65
  else if had_runtime_error then 70
  else 0

/-- run_prompt (src/main.rs lines 55-69): read one line at a time and
run it, stopping at end of input; given the finite list of lines the
input holds before EOF, every line is interpreted once, in order. -/
def run_prompt_runs (input : List String) : List String := input

/-- ASCII digit, per the spec's number rule. -/
def is_digit_c (c : Char) : Bool := decide ('0' ≤ c) && decide (c ≤ '9')

/-- Identifier head character, per the spec's rule [A-Za-z_]. -/
def is_alpha_c (c : Char) : Bool :=
  (decide ('a' ≤ c) && decide (c ≤ 'z')) ||
  (decide ('A' ≤ c) && decide (c ≤ 'Z')) || (c == '_')

/-- Identifier continuation character, per the spec [A-Za-z0-9_]. -/
def is_alnum_c (c : Char) : Bool := is_alpha_c c || is_digit_c c

/-- Consume the body of a // line comment: everything up to, but not
including, the next newline. -/
def drop_line : List Char → List Char
  | [] => []
  | c :: rest => if c = '\n' then c :: rest else drop_line rest

theorem drop_line_length_le (l : List Char) : (drop_line l).length ≤ l.length := by
  induction l with
  | nil => simp [drop_line]
  | cons c rest ih =>
    simp only [drop_line]
    split
    · simp
    · exact le_trans ih (by simp)

/-- Modelled from the spec: the whitespace-and-comment skipping the
bytecode scanner performs before each scan ("Whitespace and // line
comments are skipped before each scan"; "line starts at 1 and
increments on every newline").  The bytecode pipeline's scanner is not
under src; the scanner.rs present belongs to the tree-walking
front-end, while src/compiler.rs is the caller of this one. -/
def skip_ws : List Char → Nat → List Char × Nat
  | [], line => ([], line)
  | c :: rest, line =>
    if c = '\n' then skip_ws rest (line + 1)
    else if c = ' ' || c = '\r' || c = '\t' then skip_ws rest line
    else if c = '/' ∧ rest.head? = some '/' then
      skip_ws (drop_line rest.tail) line
    else (c :: rest, line)
termination_by l _ => l.length
decreasing_by
  · simp
  · simp
  · simp only [List.length_cons]
    refine Nat.lt_succ_of_le (le_trans (drop_line_length_le rest.tail) ?_)
    cases rest <;> simp

/-- Modelled from the spec: the body scan of a string literal ("may
span lines (each newline increments line counter); unterminated
string yields Error(\x22Unterminated string.\x22)").  Returns the body
characters, the remaining input and the updated line, or none when the
closing quote is missing. -/
def scan_string_body : List Char → Nat → List Char →
    (Option (List Char) × List Char × Nat)
  | [], line, _ => (none, [], line)
  | c :: rest, line, acc =>
    if c = '"' then (some acc.reverse, rest, line)
    else scan_string_body rest (if c = '\n' then line + 1 else line) (c :: acc)

/-- Modelled from the spec: the keyword table of section 4.1. -/
def keyword_kind (text : String) : TokenKind :=
  if text == "and" then .And
  else if text == "class" then .Class
  else if text == "else" then .Else
  else if text == "false" then .False
  else if text == "for" then .For
  else if text == "fun" then .Fun
  else if text == "if" then .If
  else if text == "nil" then .Nil
  else if text == "or" then .Or
  else if text == "print" then .Print
  else if text == "return" then .Return
  else if text == "super" then .Super
  else if text == "this" then .This
  else if text == "true" then .True
  else if text == "var" then .Var
  else if text == "while" then .While
  else .Identifier

/-- Modelled from the spec: scan_token of the bytecode pipeline's
scanner (spec section 4.1), which is not under src (src/compiler.rs is
its caller; the scanner.rs present implements the tree-walking
front-end's scanner instead).  Skips whitespace and line comments,
then returns the next token, a synthetic Error token whose lexeme
carries the diagnostic message, or Eof; the result also carries the
remaining input and the current line. -/
def scan_token (src0 : List Char) (line0 : Nat) : Token × List Char × Nat :=
  let p := skip_ws src0 line0
  match p.1, p.2 with
  | [], line => (⟨.Eof, "", line⟩, [], line)
  | c :: rest, line =>
    if c = '(' then (⟨.LeftParen, "(", line⟩, rest, line)
    else if c = ')' then (⟨.RightParen, ")", line⟩, rest, line)
    else if c = '\x7b' then (⟨.LeftBrace, "\x7b", line⟩, rest, line)
    else if c = '\x7d' then (⟨.RightBrace, "\x7d", line⟩, rest, line)
    else if c = ',' then (⟨.Comma, ",", line⟩, rest, line)
    else if c = '.' then (⟨.Dot, ".", line⟩, rest, line)
    else if c = '-' then (⟨.Minus, "-", line⟩, rest, line)
    else if c = '+' then (⟨.Plus, "+", line⟩, rest, line)
    else if c = ';' then (⟨.Semicolon, ";", line⟩, rest, line)
    else if c = '*' then (⟨.Star, "*", line⟩, rest, line)
    else if c = '/' then (⟨.Slash, "/", line⟩, rest, line)
    else if c = '!' then
      if rest.head? = some '=' then (⟨.BangEqual, "!=", line⟩, rest.tail, line)
      else (⟨.Bang, "!", line⟩, rest, line)
    else if c = '=' then
      if rest.head? = some '=' then (⟨.EqualEqual, "==", line⟩, rest.tail, line)
      else (⟨.Equal, "=", line⟩, rest, line)
    else if c = '<' then
      if rest.head? = some '=' then (⟨.LessEqual, "<=", line⟩, rest.tail, line)
      else (⟨.Less, "<", line⟩, rest, line)
    else if c = '>' then
      if rest.head? = some '=' then (⟨.GreaterEqual, ">=", line⟩, rest.tail, line)
      else (⟨.Greater, ">", line⟩, rest, line)
    else if c = '"' then
      match scan_string_body rest line [] with
      | (some body, rest2, line2) =>
        (⟨.String, String.mk ('"' :: (body ++ ['"'])), line2⟩, rest2, line2)
      | (none, rest2, line2) => (⟨.Error, "Unterminated string.", line2⟩, rest2, line2)
    else if is_digit_c c then
      let intpart := List.takeWhile is_digit_c rest
      let rest2 := List.dropWhile is_digit_c rest
      match rest2 with
      | '.' :: d :: rest3 =>
        if is_digit_c d then
          let frac := List.takeWhile is_digit_c (d :: rest3)
          let rest4 := List.dropWhile is_digit_c (d :: rest3)
          (⟨.Number, String.mk ((c :: intpart) ++ ('.' :: frac)), line⟩, rest4, line)
        else (⟨.Number, String.mk (c :: intpart), line⟩, rest2, line)
      | _ => (⟨.Number, String.mk (c :: intpart), line⟩, rest2, line)
    else if is_alpha_c c then
      let idrest := List.takeWhile is_alnum_c rest
      let rest2 := List.dropWhile is_alnum_c rest
      let text := String.mk (c :: idrest)
      (⟨keyword_kind text, text, line⟩, rest2, line)
    else (⟨.Error, "Unexpected character.", line⟩, rest, line)

/-- The characters with which some lexeme (or skipped whitespace or
comment) can begin, mirroring the guard chain of scan_token. -/
def starts_lexeme (c : Char) : Bool :=
  c = '\n' || c = ' ' || c = '\r' || c = '\t' ||
  c = '(' || c = ')' || c = '\x7b' || c = '\x7d' || c = ',' || c = '.' ||
  c = '-' || c = '+' || c = ';' || c = '*' || c = '/' ||
  c = '!' || c = '=' || c = '<' || c = '>' || c = '"' ||
  is_digit_c c || is_alpha_c c

/-- The locals list the compiler holds while compiling the inner
`print x;` of `{ var x = 10; { var x = x + 1; print x; } print x; }`:
the outer x at slot 0 (depth 1) and the inner x at slot 1 (depth 2). -/
def shadow_locals : List Local :=
  [⟨⟨.Identifier, "x", 2⟩, 1⟩, ⟨⟨.Identifier, "x", 3⟩, 2⟩]

/-- A two-byte chunk holding Equal then Not, as compiled for a `!=`. -/
def neq_chunk : Chunk := ⟨[OpCode.Equal.toByte, OpCode.Not.toByte], [], [1, 1]⟩

/-- VM state about to execute Equal, Not with b above a on the stack. -/
def neq_state (a b : Value) (rest : List Value) : VMState :=
  ⟨some neq_chunk, 0, b :: a :: rest, [], "", ""⟩

/-- The state after the Equal of neq_state. -/
def neq_state1 (a b : Value) (rest : List Value) : VMState :=
  ⟨some neq_chunk, 1, Value.bool (Value.value_eq a b) :: rest, [], "", ""⟩

/-- The state after the Equal and the Not of neq_state. -/
def neq_state2 (a b : Value) (rest : List Value) : VMState :=
  ⟨some neq_chunk, 2, Value.bool (!(Value.value_eq a b)) :: rest, [], "", ""⟩

/-- C3: the claim says resolve_local returns the slot of the most
recently declared (innermost) matching local; the code iterates the
indices 0, 1, ... upward and returns the FIRST match, i.e. the
outermost one.  On the locals of the spec's shadowing program the
innermost x sits at slot 1, yet resolve_local answers 0, so the inner
prints read the outer variable: the code contradicts the spec's own
end-to-end scenario 4 (output 11 then 10). -/
theorem c3_resolve_local_returns_outermost :
    resolve_local shadow_locals ⟨.Identifier, "x", 4⟩ = 0 ∧
    shadow_locals.length = 2 ∧
    (shadow_locals.getLast?.map fun l => l.name.lexeme) = some "x" := by
  refine ⟨?_, rfl, ?_⟩ <;> decide

/-- C5: Compiler::binary lowers `>=` to the opcode pair Less, Not;
`<=` to Greater, Not; `!=` to Equal, Not; and `==`, `>`, `<` to the
single opcodes Equal, Greater, Less; appended to the chunk in that
order by emit_byte / emit_bytes. -/
theorem c5_comparison_lowering (c : Chunk) (line : Nat) :
    (emit_ops c line (binary_emitted .GreaterEqual)).code
      = c.code ++ [OpCode.Less.toByte, OpCode.Not.toByte] ∧
    (emit_ops c line (binary_emitted .LessEqual)).code
      = c.code ++ [OpCode.Greater.toByte, OpCode.Not.toByte] ∧
    (emit_ops c line (binary_emitted .BangEqual)).code
      = c.code ++ [OpCode.Equal.toByte, OpCode.Not.toByte] ∧
    (emit_ops c line (binary_emitted .EqualEqual)).code
      = c.code ++ [OpCode.Equal.toByte] ∧
    (emit_ops c line (binary_emitted .Greater)).code
      = c.code ++ [OpCode.Greater.toByte] ∧
    (emit_ops c line (binary_emitted .Less)).code
      = c.code ++ [OpCode.Less.toByte] := by
  refine ⟨?_, ?_, ?_, ?_, ?_, ?_⟩ <;>
    simp [emit_ops, binary_emitted, Chunk.write, List.append_assoc]

/-- C6: the bytecode of `a != b` is Equal followed by Not (the same
byte sequence the compiler emits for `!(a == b)`), and running Equal
then Not on a stack holding a and b pushes Bool(not (a == b)) under
the Value equality relation, for every pair of values. -/
theorem c6_neq_is_not_eq (a b : Value) (rest : List Value) :
    binary_emitted .BangEqual = [OpCode.Equal, OpCode.Not] ∧
    step (neq_state a b rest) = some (.next (neq_state1 a b rest)) ∧
    step (neq_state1 a b rest) = some (.next (neq_state2 a b rest)) ∧
    (neq_state2 a b rest).stack = Value.bool (!(Value.value_eq a b)) :: rest := by
  refine ⟨rfl, ?_, ?_, rfl⟩
  · rfl
  · simp only [step, neq_state1, neq_state2, neq_chunk]
    cases hv : Value.value_eq a b <;> rfl

/-- C7: a fresh chunk has code and lines of equal (zero) length, both
Chunk::write and Chunk::add_constant preserve the equality, and hence
every chunk built through the Chunk interface — in particular any
chunk populated by compile, which mutates its output only through
emit_byte (Chunk::write) and make_constant (Chunk::add_constant) —
satisfies |code| = |lines|. -/
theorem c7_code_lines_parallel :
    Chunk.new.code.length = Chunk.new.lines.length ∧
    (∀ (c : Chunk) (b l : Nat), c.code.length = c.lines.length →
      (c.write b l).code.length = (c.write b l).lines.length) ∧
    (∀ (c : Chunk) (v : Value), c.code.length = c.lines.length →
      (c.add_constant v).1.code.length = (c.add_constant v).1.lines.length) ∧
    (∀ c : Chunk, ChunkReachable c → c.code.length = c.lines.length) := by
  refine ⟨rfl, ?_, ?_, ?_⟩
  · intro c b l h
    simp [Chunk.write, h]
  · intro c v h
    simpa [Chunk.add_constant] using h
  · intro c hc
    induction hc with
    | new => rfl
    | write c b l _ ih => simp [Chunk.write, ih]
    | add_constant c v _ ih => simpa [Chunk.add_constant] using ih

/-- Witness for C7 at a concrete chunk built by new, write and
add_constant. -/
theorem c7_code_lines_parallel_witness :
    ((Chunk.new.write 1 1).add_constant Value.nil).1.code.length
      = ((Chunk.new.write 1 1).add_constant Value.nil).1.lines.length :=
  c7_code_lines_parallel.2.2.2 _
    (ChunkReachable.add_constant _ _ (ChunkReachable.write _ _ _ ChunkReachable.new))

/-- C8 counterexample: with three arguments (two more than the program
path) main prints the usage line and exits 64, but the text printed is
"Usage: jlox [script]", not "Usage: <program> [path]" — taking
<program> to stand for the program name jlox, the claimed text would
be "Usage: jlox [path]". -/
theorem c8_usage_text_counterexample :
    main_dispatch ["jlox", "a.lox", "b.lox"] = .usage "Usage: jlox [script]" 64 ∧
    "Usage: jlox [script]" ≠ "Usage: jlox [path]" := by
  refine ⟨rfl, ?_⟩
  decide

/-- C8 amended: when invoked with more than one command-line argument
the program prints "Usage: jlox [script]" (a hardcoded name and the
word script, not the argv[0] program name and the word path) and exits
with code 64; with one argument it reads that file and interprets it
once, exiting 65 after a compile error (also when a runtime error was
reported too) and 70 after a runtime error; with zero arguments it
runs a REPL interpreting each input line until EOF. -/
theorem c8_cli_dispatch :
    (∀ args : List String, args.length > 2 →
      main_dispatch args = .usage "Usage: jlox [script]" 64) ∧
    (∀ args : List String, args.length = 2 →
      main_dispatch args = .runFile (args.getD 1 "")) ∧
    (∀ args : List String, args.length = 1 → main_dispatch args = .runPrompt) ∧
    run_file_exit true false = 65 ∧
    run_file_exit true true = 65 ∧
    run_file_exit false true = 70 ∧
    run_file_exit false false = 0 ∧
    (∀ input : List String, run_prompt_runs input = input) := by
  refine ⟨?_, ?_, ?_, rfl, rfl, rfl, rfl, fun _ => rfl⟩
  · intro args h
    obtain ⟨k, hk⟩ : ∃ k, args.length = k + 3 := ⟨args.length - 3, by omega⟩
    simp only [main_dispatch, hk]
  · intro args h
    simp only [main_dispatch, h]
  · intro args h
    simp only [main_dispatch, h]

/-- Witness for C8 at concrete argument lists and flags. -/
theorem c8_cli_dispatch_witness :
    main_dispatch ["jlox", "a.lox", "b.lox"] = .usage "Usage: jlox [script]" 64 ∧
    main_dispatch ["jlox", "a.lox"] = .runFile "a.lox" ∧
    main_dispatch ["jlox"] = .runPrompt := by
  have h := c8_cli_dispatch
  exact ⟨h.1 _ (by decide), h.2.1 _ (by decide), h.2.2.1 _ (by decide)⟩

/-- C10: when compilation of the source fails, VM::interpret returns
CompileError having touched no VM field: the returned state is the
incoming one, chunk, ip, stack (and globals) included — the early
return happens before the chunk and ip assignments. -/
theorem c10_compile_error_leaves_vm_unchanged
    (fuel : Nat) (compileFn : String → Chunk × Bool) (vm : VMState) (source : String)
    (h : (compileFn source).2 = false) :
    interpret fuel compileFn vm source = some (vm, .compileError) ∧
    (vm.chunk = vm.chunk ∧ vm.ip = vm.ip ∧ vm.stack = vm.stack) := by
  refine ⟨?_, rfl, rfl, rfl⟩
  simp only [interpret]
  rw [show compileFn source = ((compileFn source).1, (compileFn source).2) from rfl, h]
  simp

/-- Witness for C10 with a compile function rejecting every source. -/
theorem c10_compile_error_leaves_vm_unchanged_witness :
    interpret 5 (fun _ => (Chunk.new, false))
      ⟨none, 0, [], [], "", ""⟩ "var ;" = some (⟨none, 0, [], [], "", ""⟩, .compileError) :=
  (c10_compile_error_leaves_vm_unchanged 5 _ _ _ rfl).1

theorem try_from_some_eq {b : Nat} {oc : OpCode} (h : OpCode.try_from b = some oc) :
    b = oc.toByte := by
  by_cases hb : b < 19
  · have key : ∀ (b' : Fin 19) (oc' : OpCode),
        OpCode.try_from b'.val = some oc' → b'.val = oc'.toByte := by decide
    exact key ⟨b, hb⟩ oc h
  · exfalso
    have hn : OpCode.try_from b = none := by
      unfold OpCode.try_from
      repeat rw [if_neg (by omega)]
    rw [hn] at h
    exact Option.noConfusion h

/-- C2: whenever the dispatch loop reaches a Print opcode with at least
one value on the stack, it pops exactly that value, appends its display
form and a newline to stdout and continues with the next instruction;
and the loop leaves with Ok only from a Return opcode. -/
theorem c2_print_writes_and_continues :
    (∀ (st : VMState) (ch : Chunk) (v : Value) (rest : List Value),
      st.chunk = some ch →
      ch.code.get? st.ip = some OpCode.Print.toByte →
      st.stack = v :: rest →
      step st = some (StepOut.next { st with ip := st.ip + 1, stack := rest, output :=
        st.output ++ v.display ++ "\n" })) ∧
    (∀ (st st' : VMState), step st = some (StepOut.halt st' InterpretResult.ok) →
      ∃ ch, st.chunk = some ch ∧ ch.code.get? st.ip = some OpCode.Return.toByte) := by
  constructor
  · intro st ch v rest h1 h2 h3
    simp only [step, h1, h2, OpCode.try_from_toByte, h3]
  · intro st st' h
    rcases hc : st.chunk with _ | ch
    · rw [step] at h
      rw [hc] at h
      simp at h
    · rw [step] at h
      rw [hc] at h
      dsimp only at h
      rcases hb : ch.code.get? st.ip with _ | b
      · rw [hb] at h
        simp at h
      · refine ⟨ch, rfl, ?_⟩
        rw [hb] at h
        dsimp only at h
        rcases ho : OpCode.try_from b with _ | oc
        · rw [ho] at h
          simp at h
        · rw [ho] at h
          rw [hb, try_from_some_eq ho]
          cases oc
          case Return => rfl
          all_goals (exfalso; revert h; dsimp only; (repeat' split) <;> simp_all)

theorem runtime_error_stack (ch : Chunk) (st : VMState) (msg : String) (s : VMState)
    (h : runtime_error ch st msg = some s) : s.stack = st.stack := by
  unfold runtime_error at h
  rcases Option.map_eq_some'.mp h with ⟨L, hL, hrec⟩
  subst hrec
  rfl

theorem step_runtime_error_preserves_stack (st st' : VMState)
    (h : step st = some (StepOut.halt st' InterpretResult.runtimeError)) :
    st'.stack = st.stack := by
  rw [step] at h
  revert h
  dsimp only
  (repeat' split) <;> intro h <;>
    first
      | exact Option.noConfusion h
      | (exfalso; simp at h; done)
      | (cases h
         exact (runtime_error_stack _ { st with ip := st.ip + 1 } _ _ (by assumption)).trans rfl)
      | (cases h
         exact (runtime_error_stack _ { st with ip := st.ip + 1 + 1 } _ _ (by assumption)).trans rfl)

/-- C9: for every instruction that can raise a runtime error (Negate,
Add, Sub, Mul, Div, Greater, Less), the checks of its operand types
happen before any pop, so an instruction that leaves the dispatch loop
with RuntimeError leaves the operand stack exactly as it was when the
instruction began. -/
theorem c9_type_checks_before_pop
    (st st' : VMState) (ch : Chunk) (b : Nat) (oc : OpCode)
    (hc : st.chunk = some ch)
    (hb : ch.code.get? st.ip = some b)
    (ho : OpCode.try_from b = some oc)
    (hmem : oc = .Negate ∨ oc = .Add ∨ oc = .Sub ∨ oc = .Mul ∨ oc = .Div ∨
      oc = .Greater ∨ oc = .Less)
    (h : step st = some (StepOut.halt st' InterpretResult.runtimeError)) :
    st'.stack = st.stack :=
  step_runtime_error_preserves_stack st st' h

/-- Witness for C9: negating a boolean raises the runtime error and
leaves the one-element stack untouched. -/
theorem c9_type_checks_before_pop_witness :
    (step ⟨some ⟨[OpCode.Negate.toByte], [], [1]⟩, 0, [Value.bool true], [], "", ""⟩
      = some (StepOut.halt
          ⟨some ⟨[OpCode.Negate.toByte], [], [1]⟩, 1, [Value.bool true], [],
            "", "Operand must be a number.\n[line 1] in script\n"⟩
          InterpretResult.runtimeError)) ∧
    (⟨some ⟨[OpCode.Negate.toByte], [], [1]⟩, 1, [Value.bool true], [],
        "", "Operand must be a number.\n[line 1] in script\n"⟩ : VMState).stack
      = (⟨some ⟨[OpCode.Negate.toByte], [], [1]⟩, 0, [Value.bool true], [],
        "", ""⟩ : VMState).stack := by
  constructor
  · rfl
  · exact c9_type_checks_before_pop _ _ ⟨[OpCode.Negate.toByte], [], [1]⟩
      OpCode.Negate.toByte OpCode.Negate rfl rfl (by decide)
      (Or.inl rfl) (by rfl)

/-- The state DefineGlobal leaves behind: past the operand, value
popped, name bound. -/
def after_define_global (st : VMState) (name : String) (v : Value) (rest : List Value) : VMState :=
  { st with ip := st.ip + 1 + 1, stack := rest, globals := globals_set st.globals name v }

/-- The state a failed global lookup halts in: past the operand, with
the runtime error text on stderr naming line L. -/
def undefined_var_state (st : VMState) (name : String) (L : Nat) : VMState :=
  { st with ip := st.ip + 1 + 1, errout :=
      st.errout ++ ("Undefined variable '" ++ name ++ "'.") ++ "\n" ++ "[line " ++ toString L ++ "] in script" ++ "\n" }

/-- C1: the VM carries a globals mapping from string name to Value that
interpret threads through unchanged (so definitions persist across
interpret calls); DefineGlobal pops the top value and writes it under
the constant's name unconditionally (a lookup after writing always
answers the written value, so redefinition is silent), while GetGlobal
and SetGlobal on an absent name raise the runtime error
"Undefined variable '<name>'." on stderr. -/
theorem c1_globals_semantics :
    (∀ (st : VMState) (ch : Chunk) (idx : Nat) (name : String) (v : Value) (rest : List Value),
      st.chunk = some ch →
      ch.code.get? st.ip = some OpCode.DefineGlobal.toByte →
      ch.code.get? (st.ip + 1) = some idx →
      ch.constants.get? idx = some (Value.obj (.string name)) →
      st.stack = v :: rest →
      step st = some (StepOut.next (after_define_global st name v rest))) ∧
    (∀ (g : List (String × Value)) (name : String) (v : Value),
      globals_get (globals_set g name v) name = some v) ∧
    (∀ (st : VMState) (ch : Chunk) (idx : Nat) (name : String) (L : Nat),
      st.chunk = some ch →
      ch.code.get? st.ip = some OpCode.GetGlobal.toByte →
      ch.code.get? (st.ip + 1) = some idx →
      ch.constants.get? idx = some (Value.obj (.string name)) →
      globals_get st.globals name = none →
      ch.lines.get? (st.ip + 1) = some L →
      step st = some (StepOut.halt (undefined_var_state st name L)
        InterpretResult.runtimeError)) ∧
    (∀ (st : VMState) (ch : Chunk) (idx : Nat) (name : String) (L : Nat),
      st.chunk = some ch →
      ch.code.get? st.ip = some OpCode.SetGlobal.toByte →
      ch.code.get? (st.ip + 1) = some idx →
      ch.constants.get? idx = some (Value.obj (.string name)) →
      globals_get st.globals name = none →
      ch.lines.get? (st.ip + 1) = some L →
      step st = some (StepOut.halt (undefined_var_state st name L)
        InterpretResult.runtimeError)) ∧
    (∀ (fuel : Nat) (compileFn : String → Chunk × Bool) (vm : VMState) (source : String),
      ((compileFn source).2 = false →
        interpret fuel compileFn vm source = some (vm, .compileError)) ∧
      ((compileFn source).2 = true →
        interpret fuel compileFn vm source
          = run fuel { vm with chunk := some (compileFn source).1, ip := 0 }) ∧
      ({ vm with chunk := some (compileFn source).1, ip := 0 } : VMState).globals
        = vm.globals) := by
  refine ⟨?_, ?_, ?_, ?_, ?_⟩
  · intro st ch idx name v rest h1 h2 h3 h4 h5
    simp only [step, h1, h2, OpCode.try_from_toByte, h3, h4, h5, after_define_global]
  · intro g name v
    induction g with
    | nil => simp [globals_set, globals_get]
    | cons p rest ih =>
      obtain ⟨k, w⟩ := p
      by_cases hk : k = name
      · simp [globals_set, globals_get, hk]
      · simp only [globals_set, beq_iff_eq, hk, if_false, globals_get]
        exact ih
  · intro st ch idx name L h1 h2 h3 h4 h5 h6
    simp only [step, h1, h2, OpCode.try_from_toByte, h3, h4, h5, runtime_error,
      Nat.add_sub_cancel, h6, Option.map_some', undefined_var_state]
  · intro st ch idx name L h1 h2 h3 h4 h5 h6
    simp only [step, h1, h2, OpCode.try_from_toByte, h3, h4, h5, runtime_error,
      Nat.add_sub_cancel, h6, Option.map_some', undefined_var_state]
  · intro fuel compileFn vm source
    refine ⟨?_, ?_, rfl⟩
    · intro h
      simp only [interpret]
      rw [show compileFn source = ((compileFn source).1, (compileFn source).2) from rfl, h]
      simp
    · intro h
      simp only [interpret]
      rw [show compileFn source = ((compileFn source).1, (compileFn source).2) from rfl, h]
      simp

/-- Witness for C1: a DefineGlobal writing 7 under "a" over empty
globals, a redefinition lookup, GetGlobal and SetGlobal failures on an
empty table, and interpret on a failing and a succeeding compile. -/
theorem c1_globals_semantics_witness :
    step ⟨some ⟨[OpCode.DefineGlobal.toByte, 0], [Value.obj (.string "a")], [1, 1]⟩,
        0, [Value.number 7], [], "", ""⟩
      = some (StepOut.next ⟨some ⟨[OpCode.DefineGlobal.toByte, 0],
        [Value.obj (.string "a")], [1, 1]⟩, 2, [], [("a", Value.number 7)], "", ""⟩) ∧
    globals_get (globals_set [("a", Value.nil)] "a" (Value.number 7)) "a"
      = some (Value.number 7) ∧
    step ⟨some ⟨[OpCode.GetGlobal.toByte, 0], [Value.obj (.string "a")], [1, 1]⟩,
        0, [], [], "", ""⟩
      = some (StepOut.halt ⟨some ⟨[OpCode.GetGlobal.toByte, 0],
        [Value.obj (.string "a")], [1, 1]⟩, 2, [], [], "",
        "Undefined variable 'a'.\n[line 1] in script\n"⟩ InterpretResult.runtimeError) ∧
    step ⟨some ⟨[OpCode.SetGlobal.toByte, 0], [Value.obj (.string "a")], [1, 1]⟩,
        0, [Value.nil], [], "", ""⟩
      = some (StepOut.halt ⟨some ⟨[OpCode.SetGlobal.toByte, 0],
        [Value.obj (.string "a")], [1, 1]⟩, 2, [Value.nil], [], "",
        "Undefined variable 'a'.\n[line 1] in script\n"⟩ InterpretResult.runtimeError) ∧
    interpret 1 (fun _ => (Chunk.new, false))
        ⟨none, 0, [], [("a", Value.nil)], "", ""⟩ ""
      = some (⟨none, 0, [], [("a", Value.nil)], "", ""⟩, .compileError) ∧
    interpret 1 (fun _ => (⟨[OpCode.Return.toByte], [], [1]⟩, true))
        ⟨none, 0, [], [("a", Value.nil)], "", ""⟩ ""
      = run 1 ⟨some ⟨[OpCode.Return.toByte], [], [1]⟩, 0, [], [("a", Value.nil)], "", ""⟩ := by
  have h := c1_globals_semantics
  refine ⟨?_, ?_, ?_, ?_, ?_, ?_⟩
  · exact h.1 _ _ 0 "a" (Value.number 7) [] rfl rfl rfl rfl rfl
  · exact h.2.1 [("a", Value.nil)] "a" (Value.number 7)
  · exact h.2.2.1 _ _ 0 "a" 1 rfl rfl rfl rfl rfl rfl
  · exact h.2.2.2.1 _ _ 0 "a" 1 rfl rfl rfl rfl rfl rfl
  · exact (h.2.2.2.2 1 _ _ "").1 rfl
  · exact (h.2.2.2.2 1 _ _ "").2.1 rfl

theorem scan_string_body_no_quote (l : List Char) :
    ∀ (line : Nat) (acc : List Char), (∀ c ∈ l, c ≠ '"') →
      (scan_string_body l line acc).1 = none := by
  induction l with
  | nil => intro line acc _; rfl
  | cons c rest ih =>
    intro line acc h
    simp only [scan_string_body]
    rw [if_neg (h c (List.mem_cons_self c rest))]
    exact ih _ _ fun c' hc' => h c' (List.mem_cons_of_mem _ hc')

/-- C4: the scanner reports lexical errors as synthetic Error tokens
whose lexeme carries the diagnostic: a string literal still open at the
end of the input yields Error("Unterminated string."), and any
character that can begin no lexeme of the grammar yields
Error("Unexpected character."). -/
theorem c4_scanner_error_tokens :
    (∀ (line : Nat) (rest : List Char), (∀ c ∈ rest, c ≠ '"') →
      (scan_token ('"' :: rest) line).1.kind = TokenKind.Error ∧
      (scan_token ('"' :: rest) line).1.lexeme = "Unterminated string.") ∧
    (∀ (c : Char) (rest : List Char) (line : Nat), starts_lexeme c = false →
      (scan_token (c :: rest) line).1
        = ⟨TokenKind.Error, "Unexpected character.", line⟩) := by
  constructor
  · intro line rest h
    rcases hsb : scan_string_body rest line [] with ⟨o, r2, l2⟩
    have ho : o = none := by
      have hsn := scan_string_body_no_quote rest line [] h
      rw [hsb] at hsn
      exact hsn
    subst ho
    have hskip : skip_ws ('"' :: rest) line = ('"' :: rest, line) := by
      rw [skip_ws]
      simp
    simp [scan_token, hskip, hsb]
  · intro c rest line h
    simp only [starts_lexeme, Bool.or_eq_false_iff] at h
    obtain ⟨h, hal⟩ := h
    obtain ⟨h, hdg⟩ := h
    obtain ⟨h, hqt⟩ := h
    obtain ⟨h, hgt⟩ := h
    obtain ⟨h, hlt⟩ := h
    obtain ⟨h, heq2⟩ := h
    obtain ⟨h, hbg⟩ := h
    obtain ⟨h, hsl⟩ := h
    obtain ⟨h, hst⟩ := h
    obtain ⟨h, hsc⟩ := h
    obtain ⟨h, hpl⟩ := h
    obtain ⟨h, hmn⟩ := h
    obtain ⟨h, hdt⟩ := h
    obtain ⟨h, hcm⟩ := h
    obtain ⟨h, hrb⟩ := h
    obtain ⟨h, hlb⟩ := h
    obtain ⟨h, hrp⟩ := h
    obtain ⟨h, hlp⟩ := h
    obtain ⟨h, htb⟩ := h
    obtain ⟨h, hcr⟩ := h
    obtain ⟨hnl, hsp⟩ := h
    have hskip : skip_ws (c :: rest) line = (c :: rest, line) := by
      rw [skip_ws]
      rw [if_neg (of_decide_eq_false hnl)]
      rw [if_neg (by simp [hsp, hcr, htb])]
      rw [if_neg fun hx => (of_decide_eq_false hsl) hx.1]
    simp only [scan_token, hskip]
    rw [if_neg (of_decide_eq_false hlp), if_neg (of_decide_eq_false hrp),
      if_neg (of_decide_eq_false hlb), if_neg (of_decide_eq_false hrb),
      if_neg (of_decide_eq_false hcm), if_neg (of_decide_eq_false hdt),
      if_neg (of_decide_eq_false hmn), if_neg (of_decide_eq_false hpl),
      if_neg (of_decide_eq_false hsc), if_neg (of_decide_eq_false hst),
      if_neg (of_decide_eq_false hsl), if_neg (of_decide_eq_false hbg),
      if_neg (of_decide_eq_false heq2), if_neg (of_decide_eq_false hlt),
      if_neg (of_decide_eq_false hgt), if_neg (of_decide_eq_false hqt)]
    rw [if_neg (by simp [hdg]), if_neg (by simp [hal])]

/-- Witness for C2: Print pops the 7, prints "7" and a newline and
continues; a Return on an empty stack is the halt-with-Ok case. -/
theorem c2_print_writes_and_continues_witness :
    step ⟨some ⟨[OpCode.Print.toByte], [], [1]⟩, 0, [Value.number 7], [], "", ""⟩
      = some (StepOut.next ⟨some ⟨[OpCode.Print.toByte], [], [1]⟩, 1, [], [], "7\n", ""⟩) ∧
    (∃ ch, (⟨some ⟨[OpCode.Return.toByte], [], [1]⟩, 0, [], [], "", ""⟩ : VMState).chunk
        = some ch ∧ ch.code.get? 0 = some OpCode.Return.toByte) := by
  constructor
  · exact c2_print_writes_and_continues.1
      ⟨some ⟨[OpCode.Print.toByte], [], [1]⟩, 0, [Value.number 7], [], "", ""⟩
      ⟨[OpCode.Print.toByte], [], [1]⟩ (Value.number 7) [] rfl rfl rfl
  · exact c2_print_writes_and_continues.2
      ⟨some ⟨[OpCode.Return.toByte], [], [1]⟩, 0, [], [], "", ""⟩
      ⟨some ⟨[OpCode.Return.toByte], [], [1]⟩, 1, [], [], "", ""⟩ rfl

/-- Witness for C4: the input consisting of a double quote then "ab"
ends inside the string literal; the single byte @ begins no lexeme. -/
theorem c4_scanner_error_tokens_witness :
    ((scan_token ('"' :: ['a', 'b']) 1).1.kind = TokenKind.Error ∧
      (scan_token ('"' :: ['a', 'b']) 1).1.lexeme = "Unterminated string.") ∧
    (scan_token ['@'] 1).1 = ⟨TokenKind.Error, "Unexpected character.", 1⟩ := by
  constructor
  · exact c4_scanner_error_tokens.1 1 ['a', 'b'] (by decide)
  · exact c4_scanner_error_tokens.2 '@' [] 1 (by decide)

end Rustlox
